import Mathlib

/-!
Verification of the extraction/normalization core of the ios-ai-microtools-api
backend (an Express relay around a language-model API and the Google Books API).

The development shallowly embeds the JavaScript source:

* `Json` models the values produced by the JavaScript `JSON.parse` builtin
  (numbers restricted to integers, which covers every numeric field the
  service inspects).
* `findFrom` / `extractJsonSubstring` model the regex match
  `content.match(/(\[.*\]|\{.*\})/s)` used by `OpenAIService.scanBooks` and
  `OpenAIService.extractBookTitles`: the leftmost position at which either
  alternative matches, with the greedy `.*` (dot matches newlines under the
  `s` flag) extending to the last closing bracket/brace in the string.
* `jsonParse` models the `JSON.parse` builtin on the JSON subset the service
  exchanges (objects, arrays, strings with simple escapes, integer numbers,
  `true`/`false`/`null`, whitespace); it is executable so that concrete
  model outputs can be pushed through the whole pipeline.
* `scanBooks`, `extractBookTitles`, `compressImage`, `searchBookByTitle` and
  `enrichBooks` are translated line by line from `server.js`; the outbound
  HTTP calls (axios, sharp, Google Books) are abstracted as explicit
  outcome parameters, everything after the call is the repository's code.
-/

/-- Model of a JavaScript value produced by `JSON.parse`.  Object fields are
kept in source order; duplicate keys are resolved by `lookupField`, which
returns the last binding, as `JSON.parse` does. -/
inductive Json where
  | null
  | bool (b : Bool)
  | num (n : Int)
  | str (s : String)
  | arr (elems : List Json)
  | obj (fields : List (String × Json))
deriving Repr

/-- JavaScript truthiness of a defined value: `null`, `false`, `0` and the
empty string are falsy; every object and array is truthy. -/
def Json.truthy : Json → Bool
  | .null => false
  | .bool b => b
  | .num n => n != 0
  | .str s => s != ""
  | .arr _ => true
  | .obj _ => true

/-- Truthiness of a possibly-`undefined` value (`none` models `undefined`,
the result of reading an absent property). -/
def jsTruthy : Option Json → Bool
  | none => false
  | some v => v.truthy

/-- Property lookup on the field list of a parsed object.  `JSON.parse` keeps
the last occurrence of a duplicated key, so the lookup prefers later
bindings.  `none` models `undefined`. -/
def lookupField (fs : List (String × Json)) (k : String) : Option Json :=
  match fs with
  | [] => none
  | (k', v) :: rest =>
    match lookupField rest k with
    | some v' => some v'
    | none => if k' = k then some v else none

/-- Model of the JavaScript `a || b` operator on a possibly-`undefined`
left operand: the left value when truthy, otherwise the default. -/
def jsOr (v : Option Json) (d : Json) : Json :=
  match v with
  | some x => if x.truthy then x else d
  | none => d

/-! ## The regex `/(\[.*\]|\{.*\})/s` -/

/-- The prefix of `l` up to and including the last occurrence of `c`, or
`none` when `c` does not occur: this is what the greedy `.*` followed by the
literal closing character matches (under the `s` flag, `.` also matches
newlines, so the model treats all characters alike). -/
def takeUpToLast (c : Char) : List Char → Option (List Char)
  | [] => none
  | x :: xs =>
    match takeUpToLast c xs with
    | some body => some (x :: body)
    | none => if x = c then some [x] else none

/-- Leftmost match of `(\[.*\]|\{.*\})`: scan for the first position holding
an opening bracket/brace with a matching closing character somewhere later;
the match runs to the last such closing character. -/
def findFrom : List Char → Option (List Char)
  | [] => none
  | x :: rest =>
    if x = '[' then
      match takeUpToLast ']' rest with
      | some body => some (x :: body)
      | none => findFrom rest
    else if x = '\x7b' then
      match takeUpToLast '\x7d' rest with
      | some body => some (x :: body)
      | none => findFrom rest
    else findFrom rest

/-- Model of `content.match(/(\[.*\]|\{.*\})/s)`, returning the matched
substring (`jsonMatch[0]` in the source). -/
def extractJsonSubstring (s : String) : Option String :=
  (findFrom s.data).map String.mk

/-- Decidable form of "`l` has a substring that starts with `o` and ends with
`c`": some occurrence of `o` is followed, strictly later, by `c`. -/
def containsOC (o c : Char) : List Char → Bool
  | [] => false
  | x :: rest => (x == o && rest.contains c) || containsOC o c rest

/-! ## A model of the `JSON.parse` builtin -/

/-- JSON insignificant whitespace. -/
def isJsonWs (c : Char) : Bool :=
  c = ' ' || c = '\n' || c = '\t' || c = '\r'

/-- Drop leading JSON whitespace. -/
def skipWs : List Char → List Char
  | [] => []
  | c :: rest => if isJsonWs c then skipWs rest else c :: rest

/-- Consume an expected literal character sequence. -/
def expectChars : List Char → List Char → Option (List Char)
  | [], l => some l
  | _ :: _, [] => none
  | p :: ps, c :: rest => if c = p then expectChars ps rest else none

/-- Parse the body of a JSON string after its opening quote, handling the
single-character escapes; returns the decoded characters and the remainder
after the closing quote. -/
def parseStringBody : List Char → Option (List Char × List Char)
  | [] => none
  | c :: rest =>
    if c = '"' then some ([], rest)
    else if c = '\\' then
      match rest with
      | [] => none
      | e :: rest2 =>
        let dec : Option Char :=
          if e = '"' then some '"'
          else if e = '\\' then some '\\'
          else if e = '/' then some '/'
          else if e = 'n' then some '\n'
          else if e = 't' then some '\t'
          else if e = 'r' then some '\r'
          else if e = 'b' then some (Char.ofNat 8)
          else if e = 'f' then some (Char.ofNat 12)
          else none
        match dec with
        | none => none
        | some d =>
          match parseStringBody rest2 with
          | some (body, rem) => some (d :: body, rem)
          | none => none
    else
      match parseStringBody rest with
      | some (body, rem) => some (c :: body, rem)
      | none => none

/-- Consume a maximal run of decimal digits. -/
def takeDigits : List Char → List Char × List Char
  | [] => ([], [])
  | c :: rest =>
    if c.isDigit then
      let (ds, rem) := takeDigits rest
      (c :: ds, rem)
    else ([], c :: rest)

/-- Numeric value of a digit run. -/
def digitsToNat (ds : List Char) : Nat :=
  ds.foldl (fun acc c => acc * 10 + (c.toNat - 48)) 0

/-- Parse an unsigned integer literal (the modelled subset excludes
fractions and exponents, which the service never exchanges). -/
def parseIntDigits (l : List Char) : Option (Nat × List Char) :=
  match takeDigits l with
  | ([], _) => none
  | (ds, rem) =>
    match rem with
    | c :: _ => if c = '.' || c = 'e' || c = 'E' then none else some (digitsToNat ds, rem)
    | [] => some (digitsToNat ds, [])

mutual

/-- Parse one JSON value; the fuel argument bounds recursion depth and is
instantiated generously from the input length. -/
def parseValue : Nat → List Char → Option (Json × List Char)
  | 0, _ => none
  | fuel + 1, l =>
    match skipWs l with
    | [] => none
    | c :: rest =>
      if c = '\x7b' then
        match skipWs rest with
        | '\x7d' :: rem => some (.obj [], rem)
        | l2 =>
          match parseMembers fuel l2 with
          | some (fs, rem) => some (.obj fs, rem)
          | none => none
      else if c = '[' then
        match skipWs rest with
        | ']' :: rem => some (.arr [], rem)
        | l2 =>
          match parseElems fuel l2 with
          | some (es, rem) => some (.arr es, rem)
          | none => none
      else if c = '"' then
        match parseStringBody rest with
        | some (body, rem) => some (.str (String.mk body), rem)
        | none => none
      else if c = 't' then
        match expectChars ['r', 'u', 'e'] rest with
        | some rem => some (.bool true, rem)
        | none => none
      else if c = 'f' then
        match expectChars ['a', 'l', 's', 'e'] rest with
        | some rem => some (.bool false, rem)
        | none => none
      else if c = 'n' then
        match expectChars ['u', 'l', 'l'] rest with
        | some rem => some (.null, rem)
        | none => none
      else if c = '-' then
        match parseIntDigits rest with
        | some (n, rem) => some (.num (-(n : Int)), rem)
        | none => none
      else if c.isDigit then
        match parseIntDigits (c :: rest) with
        | some (n, rem) => some (.num (n : Int), rem)
        | none => none
      else none

/-- Parse the elements of a non-empty array, positioned after `[`. -/
def parseElems : Nat → List Char → Option (List Json × List Char)
  | 0, _ => none
  | fuel + 1, l =>
    match parseValue fuel l with
    | none => none
    | some (v, rem) =>
      match skipWs rem with
      | ',' :: rem2 =>
        match parseElems fuel rem2 with
        | some (vs, rem3) => some (v :: vs, rem3)
        | none => none
      | ']' :: rem2 => some ([v], rem2)
      | _ => none

/-- Parse the members of a non-empty object, positioned after the opening
brace. -/
def parseMembers : Nat → List Char → Option (List (String × Json) × List Char)
  | 0, _ => none
  | fuel + 1, l =>
    match skipWs l with
    | '"' :: rest =>
      match parseStringBody rest with
      | none => none
      | some (keyChars, rem) =>
        match skipWs rem with
        | ':' :: rem2 =>
          match parseValue fuel rem2 with
          | none => none
          | some (v, rem3) =>
            match skipWs rem3 with
            | ',' :: rem4 =>
              match parseMembers fuel rem4 with
              | some (fs, rem5) => some ((String.mk keyChars, v) :: fs, rem5)
              | none => none
            | '\x7d' :: rem4 => some ([(String.mk keyChars, v)], rem4)
            | _ => none
        | _ => none
    | _ => none

end

/-- Model of `JSON.parse`: parse one value and require only trailing
whitespace afterwards; `none` models a thrown `SyntaxError`. -/
def jsonParse (s : String) : Option Json :=
  match parseValue (2 * s.length + 2) s.data with
  | some (v, rem) => if skipWs rem = [] then some v else none
  | none => none

/-! ## OpenAIService (src/server.js, third file): scanBooks / extractBookTitles -/

/-- One record of the `booksData.map(...)` result in `scanBooks`
(lines 389-395).  Fields keep the JavaScript values: a truthy extracted value
is passed through unchanged, whatever its type, so the fields are `Json`. -/
structure ExtractedBookRecord where
  title : Json
  author : Json
  isbn : Json
  genre : Json
  pageCount : Json
deriving Repr

/-- Abstraction of an axios transport/service error: its `code` (axios sets
`'ECONNABORTED'` on timeout), optional HTTP response status, and message. -/
structure TransportError where
  code : Option String := none
  status : Option Nat := none
  message : String := ""
deriving Repr

/-- A value thrown inside the service: an ad-hoc `\x7b status, message \x7d`
object literal (`statusObj`), a JavaScript `Error` identified by its message
(`err`), or a rethrown axios transport error (`transport`). -/
inductive Thrown where
  | statusObj (status : Nat) (message : Json)
  | err (message : String)
  | transport (e : TransportError)
deriving Repr

/-- The `error.code` probe of the catch blocks: only rethrown axios errors
carry a `code` property; object literals and `Error` instances yield
`undefined`. -/
def thrownCode : Thrown → Option String
  | .transport e => e.code
  | _ => none

/-- The element mapping of `scanBooks` (lines 389-395):
`book.title || "Unknown Title"` and friends, with
`book.page_count || book.pageCount || null` for the page count.  Property
access on `null` throws a `TypeError` (modelled as `.error`); on any other
non-object value it yields `undefined`, so every field falls back to its
default. -/
def mapBook : Json → Except String ExtractedBookRecord
  | .null => .error "TypeError: Cannot read properties of null"
  | .obj fs => .ok {
      title := jsOr (lookupField fs "title") (.str "Unknown Title"),
      author := jsOr (lookupField fs "author") (.str "Unknown Author"),
      isbn := jsOr (lookupField fs "isbn") .null,
      genre := jsOr (lookupField fs "genre") .null,
      pageCount := jsOr (lookupField fs "page_count")
        (jsOr (lookupField fs "pageCount") .null) }
  | _ => .ok {
      title := .str "Unknown Title",
      author := .str "Unknown Author",
      isbn := .null,
      genre := .null,
      pageCount := .null }

/-- Classification of the parsed value in `scanBooks` (lines 378-395): the
sentinel check `typeof booksData === 'object' && !Array.isArray(booksData)
&& booksData.error` (note `typeof null === 'object'`, and `null.error`
throws), then the `Array.isArray` guard, then the per-element mapping. -/
def scanBooksClassify (booksData : Json) : Except Thrown (List ExtractedBookRecord) :=
  match booksData with
  | .null => .error (.err "TypeError: Cannot read properties of null")
  | .obj fs =>
    match lookupField fs "error" with
    | some v =>
      if v.truthy then .error (.statusObj 404 v)
      else .error (.err "Unexpected response format")
    | none => .error (.err "Unexpected response format")
  | .arr elems =>
    match elems.mapM mapBook with
    | .ok records => .ok records
    | .error m => .error (.err m)
  | _ => .error (.err "Unexpected response format")

/-- The response-processing part of `scanBooks` (lines 366-395): regex
extraction, `JSON.parse` (a parse failure throws a `SyntaxError`), then
classification. -/
def scanBooksOnContent (content : String) : Except Thrown (List ExtractedBookRecord) :=
  match extractJsonSubstring content with
  | none => .error (.err "No JSON found in response")
  | some s =>
    match jsonParse s with
    | none => .error (.err "SyntaxError: JSON.parse")
    | some booksData => scanBooksClassify booksData

/-- The `try` block of `scanBooks`: the outbound call either fails with a
transport error or yields the completion text, which is then processed. -/
def scanBooksTry (outcome : Except TransportError String) :
    Except Thrown (List ExtractedBookRecord) :=
  match outcome with
  | .error e => .error (.transport e)
  | .ok content => scanBooksOnContent content

/-- `OpenAIService.scanBooks` over an abstract call outcome: the catch block
(lines 396-401) translates any error whose `code` is `'ECONNABORTED'` into
`\x7b status: 408, message: "The API request timed out. Please try again." \x7d`
and rethrows every other error unchanged. -/
def scanBooks (outcome : Except TransportError String) :
    Except Thrown (List ExtractedBookRecord) :=
  match scanBooksTry outcome with
  | .ok v => .ok v
  | .error e =>
    if thrownCode e = some "ECONNABORTED" then
      .error (.statusObj 408 (.str "The API request timed out. Please try again."))
    else .error e

/-- The response-processing part of `extractBookTitles` (lines 446-463):
same extraction and parse, then only an `Array.isArray` check — the parsed
array is returned unchanged, whatever its elements. -/
def extractTitlesOnContent (content : String) : Except Thrown (List Json) :=
  match extractJsonSubstring content with
  | none => .error (.err "No JSON found in response")
  | some s =>
    match jsonParse s with
    | none => .error (.err "SyntaxError: JSON.parse")
    | some titlesData =>
      match titlesData with
      | .arr elems => .ok elems
      | _ => .error (.err "Unexpected response format")

/-- The `try` block of `extractBookTitles`. -/
def extractBookTitlesTry (outcome : Except TransportError String) :
    Except Thrown (List Json) :=
  match outcome with
  | .error e => .error (.transport e)
  | .ok content => extractTitlesOnContent content

/-- `OpenAIService.extractBookTitles` over an abstract call outcome, with the
same timeout-translating catch block (lines 464-469). -/
def extractBookTitles (outcome : Except TransportError String) :
    Except Thrown (List Json) :=
  match extractBookTitlesTry outcome with
  | .ok v => .ok v
  | .error e =>
    if thrownCode e = some "ECONNABORTED" then
      .error (.statusObj 408 (.str "The API request timed out. Please try again."))
    else .error e

/-- `OpenAIService.compressImage` (lines 239-260): the whole
decode/resize/re-encode pipeline (Buffer.from + sharp, an external library,
abstracted as the `pipeline` parameter) runs inside a `try`; on any failure
the catch returns the original base64 string.  The plain `String` return
type reflects that the function never throws. -/
def compressImage (pipeline : String → Except String String) (base64Image : String) : String :=
  match pipeline base64Image with
  | .ok compressed => compressed
  | .error _ => base64Image

/-! ## googleBooksService (src/server.js, second file): searchBookByTitle -/

/-- One entry of `volumeInfo.industryIdentifiers` in a Google Books volume. -/
structure IndustryIdentifier where
  type : String
  identifier : String
deriving Repr, DecidableEq

/-- The fields of `volumeInfo` the service reads; `none` models an absent
(`undefined`) field.  `averageRating` and `imageLinks` are never inspected
beyond being copied, so they stay opaque `Json`. -/
structure VolumeInfo where
  authors : Option (List String) := none
  publishedDate : Option String := none
  description : Option String := none
  pageCount : Option Int := none
  categories : Option (List String) := none
  averageRating : Option Json := none
  imageLinks : Option Json := none
  previewLink : Option String := none
  industryIdentifiers : Option (List IndustryIdentifier) := none
deriving Repr

/-- One item of `response.data.items`. -/
structure Volume where
  id : Option String := none
  volumeInfo : Option VolumeInfo := none
deriving Repr

/-- Outcome of the axios GET against the Google Books API for one title:
either a thrown transport error (caught, its message recorded) or a
response carrying `totalItems` and possibly `items`. -/
inductive LookupOutcome where
  | failure (message : String)
  | response (totalItems : Int) (items : Option (List Volume))

/-- The record assembled by `searchBookByTitle`.  The not-found shapes carry
only `title`, `found` and possibly `error`; the remaining fields then keep
their defaults, modelling the absent (`undefined`) JavaScript properties. -/
structure EnrichedBookRecord where
  title : String
  found : Bool
  error : Option String := none
  id : Option String := none
  authors : List String := []
  publishedDate : Option String := none
  description : Option String := none
  pageCount : Option Int := none
  categories : List String := []
  averageRating : Option Json := none
  imageLinks : Option Json := none
  previewLink : Option String := none
  isbn10 : Option String := none
  isbn13 : Option String := none
deriving Repr

/-- The description shaping of line 209-211:
`description.substring(0, 200) + (description.length > 200 ? '...' : '')`. -/
def truncate200 (d : String) : String :=
  String.mk (d.data.take 200 ++ (if 200 < d.data.length then ['.', '.', '.'] else []))

/-- `searchBookByTitle` (lines 181-224) over an abstract lookup outcome.
`totalItems === 0` yields the bare not-found record; a missing or empty
`items` makes `response.data.items[0]` / `book.volumeInfo` throw, which the
surrounding catch converts to a not-found record carrying the error message;
otherwise the volume is normalized field by field, with
`volumeInfo || \x7b\x7d`, `|| []` defaults and the `find` scans for the
ISBN identifier types. -/
def searchBookByTitle (lookup : String → LookupOutcome) (title : String) :
    EnrichedBookRecord :=
  match lookup title with
  | .failure msg => { title := title, found := false, error := some msg }
  | .response totalItems items =>
    if totalItems = 0 then
      { title := title, found := false }
    else
      match items with
      | none =>
        { title := title, found := false,
          error := some "TypeError: Cannot read properties of undefined" }
      | some [] =>
        { title := title, found := false,
          error := some "TypeError: Cannot read properties of undefined" }
      | some (book :: _) =>
        let volumeInfo := book.volumeInfo.getD {}
        let industryIdentifiers := volumeInfo.industryIdentifiers.getD []
        let isbn10 := (industryIdentifiers.find? (fun i => i.type == "ISBN_10")).map
          IndustryIdentifier.identifier
        let isbn13 := (industryIdentifiers.find? (fun i => i.type == "ISBN_13")).map
          IndustryIdentifier.identifier
        { title := title,
          found := true,
          id := book.id,
          authors := volumeInfo.authors.getD [],
          publishedDate := volumeInfo.publishedDate,
          description :=
            match volumeInfo.description with
            | some d => if d = "" then none else some (truncate200 d)
            | none => none,
          pageCount := volumeInfo.pageCount,
          categories := volumeInfo.categories.getD [],
          averageRating := volumeInfo.averageRating,
          imageLinks := some (volumeInfo.imageLinks.getD (.obj [])),
          previewLink := volumeInfo.previewLink,
          isbn10 := isbn10,
          isbn13 := isbn13 }

/-- The enrichment step of the `POST /api3/extract-book-titles` handler
(part_000 lines 414-415): `titles.map(title => searchBookByTitle(title))`
joined with `Promise.all`, which resolves in input order. -/
def enrichBooks (lookup : String → LookupOutcome) (titles : List String) :
    List EnrichedBookRecord :=
  titles.map (searchBookByTitle lookup)

/-! ## Concrete inputs used by witnesses and counterexamples -/

/-- A pipeline that always fails, standing for any sharp processing error. -/
def failingPipeline : String → Except String String :=
  fun _ => .error "Input buffer contains unsupported image format"

/-- A timed-out axios call. -/
def timeoutTransportError : TransportError := { code := some "ECONNABORTED" }

/-- A non-timeout upstream failure. -/
def upstreamTransportError : TransportError :=
  { code := none, status := some 500, message := "upstream failure" }

/-- A lookup whose outcome differs per title: one error, one miss, one hit. -/
def mixedLookup : String → LookupOutcome := fun t =>
  if t = "A" then .failure "network down"
  else if t = "B" then .response 0 none
  else .response 1 (some [{ id := some "vol1" }])

/-- Model output with the sentinel wrapped in an array, embedded in prose. -/
def sentinelWrappedContent : String :=
  "Sorry: [\x7b\"error\":\"No books detected\"\x7d] was all I could find."

/-- Model output with the bare sentinel object, embedded in prose. -/
def sentinelBareContent : String :=
  "Sorry: \x7b\"error\":\"No books detected\"\x7d was all I could find."

/-- A 201-character description. -/
def longDesc : String := String.mk (List.replicate 201 'a')

/-- A matching volume whose description has 201 characters. -/
def longDescVolume : Volume :=
  { volumeInfo := some { description := some longDesc } }

/-- The lookup outcome behind the C8 counterexample. -/
def longDescLookup : String → LookupOutcome :=
  fun _ => .response 1 (some [longDescVolume])

/-- The lookup outcome behind the C8 witness: one volume with a short
description. -/
def shortDescLookup : String → LookupOutcome :=
  fun _ => .response 1 (some [{ volumeInfo := some { description := some "brief" } }])

/-- An identifier list with a decoy entry and duplicated ISBN-10 entries,
behind the C9 witness. -/
def isbnIds : List IndustryIdentifier :=
  [{ type := "OTHER", identifier := "z" },
   { type := "ISBN_10", identifier := "0306406152" },
   { type := "ISBN_13", identifier := "9780306406157" },
   { type := "ISBN_10", identifier := "duplicate" }]

/-- A matching volume carrying `isbnIds`. -/
def isbnVolume : Volume :=
  { volumeInfo := some { industryIdentifiers := some isbnIds } }

/-- The lookup outcome behind the C9 witness. -/
def isbnLookup : String → LookupOutcome :=
  fun _ => .response 1 (some [isbnVolume])

/-! ## Claim theorems -/

/-- C3: `compressImage` is total with respect to processing failures — for
every base64 input, whenever the decode/resize/re-encode pipeline fails, the
operation returns the original input string unchanged instead of propagating
the failure; the plain `String` return type records that it never throws. -/
theorem compressImage_failure_returns_original
    (pipeline : String → Except String String) (b e : String)
    (h : pipeline b = .error e) : compressImage pipeline b = b := by
  simp [compressImage, h]

theorem compressImage_failure_returns_original_witness :
    compressImage failingPipeline "notAnImage" = "notAnImage" :=
  compressImage_failure_returns_original failingPipeline "notAnImage"
    "Input buffer contains unsupported image format" rfl

/-- C4: in both vision-extraction operations, a transport failure whose
axios `code` is `'ECONNABORTED'` (the timeout signal) is translated into the
distinguished status-408 error with the fixed message, while every other
transport/service error is rethrown unchanged, status and message intact. -/
theorem visionCalls_timeout_translation (e : TransportError) :
    (e.code = some "ECONNABORTED" →
      scanBooks (.error e) = .error (.statusObj 408
        (.str "The API request timed out. Please try again.")) ∧
      extractBookTitles (.error e) = .error (.statusObj 408
        (.str "The API request timed out. Please try again."))) ∧
    (e.code ≠ some "ECONNABORTED" →
      scanBooks (.error e) = .error (.transport e) ∧
      extractBookTitles (.error e) = .error (.transport e)) := by
  constructor
  · intro h
    constructor <;>
      simp [scanBooks, scanBooksTry, extractBookTitles, extractBookTitlesTry,
        thrownCode, h]
  · intro h
    constructor <;>
      simp [scanBooks, scanBooksTry, extractBookTitles, extractBookTitlesTry,
        thrownCode, h]

theorem visionCalls_timeout_translation_witness :
    scanBooks (.error timeoutTransportError) = .error (.statusObj 408
      (.str "The API request timed out. Please try again.")) ∧
    extractBookTitles (.error upstreamTransportError) =
      .error (.transport upstreamTransportError) :=
  ⟨((visionCalls_timeout_translation timeoutTransportError).1 rfl).1,
   ((visionCalls_timeout_translation upstreamTransportError).2 (by decide)).2⟩

/-- C10: the absence test in the `scanBooks` element mapping is JavaScript
falsiness, not key absence — empty-string `title`/`author` become the
"Unknown" placeholders, empty-string `isbn`/`genre` become `null`, and a
present page count equal to `0` (under either field name) becomes `null`. -/
theorem scanBooks_falsy_fields_treated_as_absent :
    scanBooksClassify (.arr [.obj [("title", .str ""), ("author", .str ""),
        ("isbn", .str ""), ("genre", .str ""), ("page_count", .num 0)]]) =
      .ok [{ title := .str "Unknown Title", author := .str "Unknown Author",
             isbn := .null, genre := .null, pageCount := .null }] ∧
    scanBooksClassify (.arr [.obj [("pageCount", .num 0)]]) =
      .ok [{ title := .str "Unknown Title", author := .str "Unknown Author",
             isbn := .null, genre := .null, pageCount := .null }] :=
  ⟨rfl, rfl⟩

/-- C6: a model output whose first JSON substring parses to
`[\x7b"title":"X"\x7d]` makes `scanBooks` succeed with exactly one record
carrying the "Unknown Author" and `null` defaults; in general the element
mapping substitutes the "Unknown" placeholders for absent `title`/`author`,
reads the page count from either `page_count` or `pageCount`, and leaves
`isbn`/`genre`/`pageCount` `null` when absent. -/
theorem scanBooks_mapping_defaults :
    (∀ content s, extractJsonSubstring content = some s →
      jsonParse s = some (.arr [.obj [("title", .str "X")]]) →
      scanBooks (.ok content) =
        .ok [{ title := .str "X", author := .str "Unknown Author",
               isbn := .null, genre := .null, pageCount := .null }]) ∧
    (∀ fs r, mapBook (.obj fs) = .ok r →
      (lookupField fs "title" = none → r.title = .str "Unknown Title") ∧
      (lookupField fs "author" = none → r.author = .str "Unknown Author") ∧
      (lookupField fs "isbn" = none → r.isbn = .null) ∧
      (lookupField fs "genre" = none → r.genre = .null) ∧
      (lookupField fs "page_count" = none → lookupField fs "pageCount" = none →
        r.pageCount = .null) ∧
      (∀ v, lookupField fs "page_count" = some v → v.truthy = true →
        r.pageCount = v) ∧
      (∀ v, lookupField fs "page_count" = none → lookupField fs "pageCount" = some v →
        v.truthy = true → r.pageCount = v)) := by
  constructor
  · intro content s hext hparse
    simp only [scanBooks, scanBooksTry, scanBooksOnContent, hext, hparse]
    rfl
  · intro fs r hr
    rw [mapBook, Except.ok.injEq] at hr
    subst hr
    refine ⟨fun h => by simp [jsOr, h], fun h => by simp [jsOr, h],
      fun h => by simp [jsOr, h], fun h => by simp [jsOr, h],
      fun h h2 => by simp [jsOr, h, h2],
      fun v h hv => by simp [jsOr, h, hv],
      fun v h h2 hv => by simp [jsOr, h, h2, hv]⟩

theorem scanBooks_mapping_defaults_witness :
    scanBooks (.ok "[\x7b\"title\":\"X\"\x7d]") =
      .ok [{ title := .str "X", author := .str "Unknown Author",
             isbn := .null, genre := .null, pageCount := .null }] ∧
    ({ title := .str "Unknown Title", author := .str "Unknown Author",
       isbn := .null, genre := .str "Mystery", pageCount := .null } :
        ExtractedBookRecord).title = .str "Unknown Title" :=
  ⟨scanBooks_mapping_defaults.1 "[\x7b\"title\":\"X\"\x7d]"
    "[\x7b\"title\":\"X\"\x7d]" rfl rfl,
   (scanBooks_mapping_defaults.2 [("genre", .str "Mystery")]
      { title := .str "Unknown Title", author := .str "Unknown Author",
        isbn := .null, genre := .str "Mystery", pageCount := .null } rfl).1 rfl⟩

/-- Every branch of `searchBookByTitle` — success, no match, missing items,
caught per-title failure — echoes the input title. -/
theorem searchBookByTitle_title_eq (lookup : String → LookupOutcome) (t : String) :
    (searchBookByTitle lookup t).title = t := by
  cases h : lookup t with
  | failure msg => simp [searchBookByTitle, h]
  | response totalItems items =>
    by_cases h0 : totalItems = 0
    · simp [searchBookByTitle, h, h0]
    · cases items with
      | none => simp [searchBookByTitle, h, h0]
      | some l =>
        cases l with
        | nil => simp [searchBookByTitle, h, h0]
        | cons b rest => simp [searchBookByTitle, h, h0]

/-- C1: the Metadata Enricher returns exactly one record per input title, in
input order, each echoing its title, regardless of the outcome (success,
no match, or caught error) of every individual lookup. -/
theorem enrichBooks_preserves_length_and_titles
    (lookup : String → LookupOutcome) (titles : List String) :
    (enrichBooks lookup titles).length = titles.length ∧
    ∀ i (h : i < titles.length) (h2 : i < (enrichBooks lookup titles).length),
      ((enrichBooks lookup titles).get ⟨i, h2⟩).title = titles.get ⟨i, h⟩ := by
  constructor
  · simp [enrichBooks]
  · intro i h h2
    simp [enrichBooks, searchBookByTitle_title_eq]

theorem enrichBooks_preserves_length_and_titles_witness :
    (enrichBooks mixedLookup ["A", "B", "C"]).length = 3 ∧
    ((enrichBooks mixedLookup ["A", "B", "C"]).get ⟨2, by decide⟩).title = "C" :=
  ⟨(enrichBooks_preserves_length_and_titles mixedLookup ["A", "B", "C"]).1,
   (enrichBooks_preserves_length_and_titles mixedLookup ["A", "B", "C"]).2 2
     (by decide) (by decide)⟩

/-- When `c` does not occur in `l`, the greedy search for a closing
character fails. -/
theorem takeUpToLast_eq_none_of_not_contains (c : Char) (l : List Char)
    (h : l.contains c = false) : takeUpToLast c l = none := by
  induction l with
  | nil => rfl
  | cons x xs ih =>
    rw [List.contains_cons, Bool.or_eq_false_iff] at h
    obtain ⟨h1, h2⟩ := h
    rw [takeUpToLast, ih h2]
    simp only [beq_eq_false_iff_ne, ne_eq] at h1
    simp [Ne.symm h1]

/-- The regex finds no match on text with no bracket-delimited and no
brace-delimited substring. -/
theorem findFrom_eq_none : ∀ l : List Char, containsOC '[' ']' l = false →
    containsOC '\x7b' '\x7d' l = false → findFrom l = none := by
  intro l
  induction l with
  | nil => intro _ _; rfl
  | cons x rest ih =>
    intro h1 h2
    rw [containsOC, Bool.or_eq_false_iff] at h1 h2
    obtain ⟨h1a, h1b⟩ := h1
    obtain ⟨h2a, h2b⟩ := h2
    rw [findFrom]
    by_cases hx : x = '['
    · have hc : rest.contains ']' = false := by
        rcases Bool.and_eq_false_iff.mp h1a with h | h
        · simp [hx] at h
        · exact h
      rw [takeUpToLast_eq_none_of_not_contains _ _ hc]
      simp [hx, ih h1b h2b]
    · by_cases hy : x = '\x7b'
      · have hc : rest.contains '\x7d' = false := by
          rcases Bool.and_eq_false_iff.mp h2a with h | h
          · simp [hy] at h
          · exact h
        rw [takeUpToLast_eq_none_of_not_contains _ _ hc]
        simp [hx, hy, ih h1b h2b]
      · simp [hx, hy, ih h1b h2b]

/-- C7: on model output containing no substring that starts with `[` and
ends with `]` and none that starts with a brace and ends with a closing
brace, both extraction paths fail with the malformed-response error
`"No JSON found in response"` — neither a success payload nor the
not-found condition. -/
theorem extractor_no_json_malformed (content : String)
    (h1 : containsOC '[' ']' content.data = false)
    (h2 : containsOC '\x7b' '\x7d' content.data = false) :
    scanBooks (.ok content) = .error (.err "No JSON found in response") ∧
    extractBookTitles (.ok content) = .error (.err "No JSON found in response") := by
  have hx : extractJsonSubstring content = none := by
    simp [extractJsonSubstring, findFrom_eq_none _ h1 h2]
  constructor
  · simp [scanBooks, scanBooksTry, scanBooksOnContent, hx, thrownCode]
  · simp [extractBookTitles, extractBookTitlesTry, extractTitlesOnContent, hx,
      thrownCode]

theorem extractor_no_json_malformed_witness :
    scanBooks (.ok "I see no structured data in this photo.") =
      .error (.err "No JSON found in response") ∧
    extractBookTitles (.ok "I see no structured data in this photo.") =
      .error (.err "No JSON found in response") :=
  extractor_no_json_malformed "I see no structured data in this photo."
    (by decide) (by decide)

/-- C2 counterexample: the claim quantifies over both the bare sentinel
object and its array-wrapped form, but on output whose first JSON substring
parses to `[\x7b"error": msg\x7d]` the `Array.isArray` guard fires before
the sentinel check and `scanBooks` returns a one-record success payload,
not the 404 not-found condition. -/
theorem scanBooks_sentinel_cex :
    ¬ (∀ content s msg, extractJsonSubstring content = some s →
        (jsonParse s = some (.obj [("error", .str msg)]) ∨
         jsonParse s = some (.arr [.obj [("error", .str msg)]])) →
        scanBooks (.ok content) = .error (.statusObj 404 (.str msg))) := by
  intro hclaim
  have h := hclaim sentinelWrappedContent "[\x7b\"error\":\"No books detected\"\x7d]"
    "No books detected" rfl (Or.inr rfl)
  have h2 : scanBooks (.ok sentinelWrappedContent) =
      .ok [{ title := .str "Unknown Title", author := .str "Unknown Author",
             isbn := .null, genre := .null, pageCount := .null }] := rfl
  rw [h2] at h
  exact Except.noConfusion h

/-- C2 (amended): a model output whose first JSON substring parses to the
bare sentinel object `\x7b"error": msg\x7d` with non-empty `msg` makes
`scanBooks` fail with the distinguished status-404 condition carrying `msg`;
the array-wrapped form `[\x7b"error": msg\x7d]` instead passes the
`Array.isArray` guard and yields a success payload of one all-defaults
record. -/
theorem scanBooks_sentinel_classification (content s msg : String)
    (hmsg : msg ≠ "") (hext : extractJsonSubstring content = some s) :
    (jsonParse s = some (.obj [("error", .str msg)]) →
      scanBooks (.ok content) = .error (.statusObj 404 (.str msg))) ∧
    (jsonParse s = some (.arr [.obj [("error", .str msg)]]) →
      scanBooks (.ok content) =
        .ok [{ title := .str "Unknown Title", author := .str "Unknown Author",
               isbn := .null, genre := .null, pageCount := .null }]) := by
  constructor
  · intro hp
    simp only [scanBooks, scanBooksTry, scanBooksOnContent, hext, hp]
    simp [scanBooksClassify, lookupField, Json.truthy, bne_iff_ne, hmsg, thrownCode]
  · intro hp
    simp only [scanBooks, scanBooksTry, scanBooksOnContent, hext, hp]
    rfl

theorem scanBooks_sentinel_classification_witness :
    scanBooks (.ok sentinelBareContent) =
      .error (.statusObj 404 (.str "No books detected")) :=
  (scanBooks_sentinel_classification sentinelBareContent
    "\x7b\"error\":\"No books detected\"\x7d" "No books detected"
    (by decide) rfl).1 rfl

/-- C5 counterexample: the first JSON substring of `"[1]"` parses to an
array containing a non-string, yet `extractBookTitles` returns it unchanged
as a success instead of failing. -/
theorem extractTitles_nonstring_cex :
    jsonParse "[1]" = some (.arr [.num 1]) ∧
    extractBookTitles (.ok "[1]") = .ok [.num 1] :=
  ⟨rfl, rfl⟩

/-- C5 (amended): when the first JSON substring parses to a value,
`extractBookTitles` returns the value unchanged whenever it is an array,
regardless of its element types — the code never verifies the elements are
strings — and fails with `"Unexpected response format"` exactly when the
value is not an array. -/
theorem extractTitles_array_passthrough (content s : String) (v : Json)
    (hext : extractJsonSubstring content = some s) (hp : jsonParse s = some v) :
    (∀ elems, v = .arr elems → extractBookTitles (.ok content) = .ok elems) ∧
    ((∀ elems, v ≠ .arr elems) → extractBookTitles (.ok content) =
      .error (.err "Unexpected response format")) := by
  constructor
  · intro elems hv
    subst hv
    simp only [extractBookTitles, extractBookTitlesTry, extractTitlesOnContent,
      hext, hp]
  · intro hv
    cases v with
    | arr elems => exact absurd rfl (hv elems)
    | null => simp [extractBookTitles, extractBookTitlesTry,
        extractTitlesOnContent, hext, hp, thrownCode]
    | bool b => simp [extractBookTitles, extractBookTitlesTry,
        extractTitlesOnContent, hext, hp, thrownCode]
    | num n => simp [extractBookTitles, extractBookTitlesTry,
        extractTitlesOnContent, hext, hp, thrownCode]
    | str t => simp [extractBookTitles, extractBookTitlesTry,
        extractTitlesOnContent, hext, hp, thrownCode]
    | obj fs => simp [extractBookTitles, extractBookTitlesTry,
        extractTitlesOnContent, hext, hp, thrownCode]

theorem extractTitles_array_passthrough_witness :
    extractBookTitles (.ok "Here: [\"Dune\", \"Emma\"] only.") =
      .ok [.str "Dune", .str "Emma"] :=
  (extractTitles_array_passthrough "Here: [\"Dune\", \"Emma\"] only."
    "[\"Dune\", \"Emma\"]" (.arr [.str "Dune", .str "Emma"]) rfl rfl).1
    [.str "Dune", .str "Emma"] rfl

/-- Shape of the `found` flag and the description and ISBN fields in the
found branch of `searchBookByTitle`. -/
theorem searchBookByTitle_found_fields (lookup : String → LookupOutcome)
    (t : String) (ti : Int) (book : Volume) (rest : List Volume)
    (hl : lookup t = .response ti (some (book :: rest))) (hti : ti ≠ 0) :
    (searchBookByTitle lookup t).found = true ∧
    (searchBookByTitle lookup t).description =
      (match (book.volumeInfo.getD {}).description with
       | some d => if d = "" then none else some (truncate200 d)
       | none => none) ∧
    (searchBookByTitle lookup t).isbn10 =
      (((book.volumeInfo.getD {}).industryIdentifiers.getD []).find?
        (fun i => i.type == "ISBN_10")).map IndustryIdentifier.identifier ∧
    (searchBookByTitle lookup t).isbn13 =
      (((book.volumeInfo.getD {}).industryIdentifiers.getD []).find?
        (fun i => i.type == "ISBN_13")).map IndustryIdentifier.identifier := by
  refine ⟨?_, ?_, ?_, ?_⟩ <;> simp [searchBookByTitle, hl, hti]

/-- The truncated description never exceeds 200 characters plus the
3-character marker. -/
theorem truncate200_length_le (d : String) : (truncate200 d).length ≤ 203 := by
  show (d.data.take 200 ++ (if 200 < d.data.length then ['.', '.', '.'] else [])).length ≤ 203
  by_cases h : 200 < d.data.length
  · rw [if_pos h, List.length_append, List.length_take]
    simp only [List.length_cons, List.length_nil]
    omega
  · rw [if_neg h, List.length_append, List.length_take, List.length_nil]
    omega

/-- A description of at most 200 characters is passed through unchanged. -/
theorem truncate200_of_le (d : String) (h : d.length ≤ 200) : truncate200 d = d := by
  have hd : d.data.length ≤ 200 := h
  unfold truncate200
  rw [if_neg (by omega), List.append_nil, List.take_of_length_le hd]

/-- A longer description yields exactly its first 200 characters plus the
marker: 203 characters in total. -/
theorem truncate200_of_gt (d : String) (h : 200 < d.length) :
    truncate200 d = String.mk (d.data.take 200 ++ ['.', '.', '.']) ∧
    (truncate200 d).length = 203 := by
  have hd : 200 < d.data.length := h
  constructor
  · unfold truncate200
    rw [if_pos hd]
  · show (d.data.take 200 ++ (if 200 < d.data.length then ['.', '.', '.'] else [])).length = 203
    rw [if_pos hd, List.length_append, List.length_take]
    simp only [List.length_cons, List.length_nil]
    omega

/-- C8 counterexample: a found match whose description has 201 characters
produces a description field of 203 characters — the first 200 characters
plus the 3-character `"..."` marker — refuting the claim's bound of at most
200 characters. -/
theorem enricher_description_cex :
    (searchBookByTitle longDescLookup "t").found = true ∧
    (searchBookByTitle longDescLookup "t").description =
      some (String.mk (List.replicate 200 'a' ++ ['.', '.', '.'])) ∧
    (String.mk (List.replicate 200 'a' ++ ['.', '.', '.'])).length = 203 ∧
    ¬ (String.mk (List.replicate 200 'a' ++ ['.', '.', '.'])).length ≤ 200 := by
  have hlen : (String.mk (List.replicate 200 'a' ++ ['.', '.', '.'])).length = 203 := by
    show (List.replicate 200 'a' ++ ['.', '.', '.']).length = 203
    rw [List.length_append, List.length_replicate]
    rfl
  obtain ⟨hfound, hdesc, -, -⟩ := searchBookByTitle_found_fields longDescLookup "t"
    1 longDescVolume [] rfl (by decide)
  refine ⟨hfound, ?_, hlen, by rw [hlen]; omega⟩
  rw [hdesc]
  have h1 : (longDescVolume.volumeInfo.getD {}).description = some longDesc := rfl
  rw [h1]
  have hne : ¬ longDesc = "" := by
    intro h
    have : longDesc.data = [] := by rw [h]
    rw [show longDesc.data = List.replicate 201 'a' from rfl] at this
    exact List.noConfusion this
  simp only [hne, if_false]
  have hdata : longDesc.data = List.replicate 201 'a' := rfl
  unfold truncate200
  rw [hdata, List.take_replicate, List.length_replicate, if_pos (by omega)]
  rfl

/-- C8 (amended): for a found match, a present non-empty description `d` is
truncated to its first 200 characters plus the `"..."` marker when longer
than 200 characters — 203 characters in total, so the field is at most 203
characters — is passed through unchanged when at most 200 characters, and
an absent or empty description yields `null`. -/
theorem enricher_description_truncation (lookup : String → LookupOutcome)
    (t : String) (ti : Int) (book : Volume) (rest : List Volume)
    (hl : lookup t = .response ti (some (book :: rest))) (hti : ti ≠ 0) :
    (∀ d, (book.volumeInfo.getD {}).description = some d → d ≠ "" →
      (searchBookByTitle lookup t).description = some (truncate200 d) ∧
      (truncate200 d).length ≤ 203 ∧
      (d.length ≤ 200 → truncate200 d = d) ∧
      (200 < d.length →
        truncate200 d = String.mk (d.data.take 200 ++ ['.', '.', '.']) ∧
        (truncate200 d).length = 203)) ∧
    ((book.volumeInfo.getD {}).description = none →
      (searchBookByTitle lookup t).description = none) ∧
    ((book.volumeInfo.getD {}).description = some "" →
      (searchBookByTitle lookup t).description = none) := by
  obtain ⟨-, hdesc, -, -⟩ := searchBookByTitle_found_fields lookup t ti book rest hl hti
  refine ⟨fun d hd hne => ?_, fun hd => ?_, fun hd => ?_⟩
  · rw [hdesc, hd]
    exact ⟨by simp [hne], truncate200_length_le d, truncate200_of_le d,
      truncate200_of_gt d⟩
  · rw [hdesc, hd]
  · rw [hdesc, hd]
    simp

theorem enricher_description_truncation_witness :
    (searchBookByTitle shortDescLookup "t").description = some (truncate200 "brief") ∧
    truncate200 "brief" = "brief" :=
  ⟨((enricher_description_truncation shortDescLookup "t" 1
      { volumeInfo := some { description := some "brief" } } [] rfl (by decide)).1
      "brief" rfl (by decide)).1,
   ((enricher_description_truncation shortDescLookup "t" 1
      { volumeInfo := some { description := some "brief" } } [] rfl (by decide)).1
      "brief" rfl (by decide)).2.2.1 (by decide)⟩

/-- `List.find?` returns the first element satisfying the predicate: on a
list decomposed as `pre ++ e :: post` with nothing in `pre` matching and `e`
matching, it returns `e`. -/
theorem find_eq_of_first {α : Type} (p : α → Bool) :
    ∀ (pre : List α) (e : α) (post : List α),
    (∀ x ∈ pre, p x = false) → p e = true →
    (pre ++ e :: post).find? p = some e := by
  intro pre
  induction pre with
  | nil =>
    intro e post _ he
    simpa using List.find?_cons_of_pos post he
  | cons a as ih =>
    intro e post hpre he
    have ha : p a = false := hpre a (List.mem_cons_self a as)
    rw [List.cons_append, List.find?_cons_of_neg _ (by simp [ha])]
    exact ih e post (fun x hx => hpre x (List.mem_cons_of_mem a hx)) he

/-- C9: for every found match, `isbn10`/`isbn13` are the identifiers of the
first entries of the identifier list typed `"ISBN_10"` / `"ISBN_13"`
respectively, and `none` when no entry of that type exists — in particular
when the identifier list is absent entirely, in which case it defaults to
the empty list. -/
theorem enricher_isbn_selection (lookup : String → LookupOutcome) (t : String)
    (ti : Int) (book : Volume) (rest : List Volume)
    (hl : lookup t = .response ti (some (book :: rest))) (hti : ti ≠ 0) :
    ((book.volumeInfo.getD {}).industryIdentifiers = none →
      (book.volumeInfo.getD {}).industryIdentifiers.getD [] = [] ∧
      (searchBookByTitle lookup t).isbn10 = none ∧
      (searchBookByTitle lookup t).isbn13 = none) ∧
    (∀ ids, (book.volumeInfo.getD {}).industryIdentifiers.getD [] = ids →
      ((∀ x ∈ ids, x.type ≠ "ISBN_10") →
        (searchBookByTitle lookup t).isbn10 = none) ∧
      (∀ pre e post, ids = pre ++ e :: post → e.type = "ISBN_10" →
        (∀ x ∈ pre, x.type ≠ "ISBN_10") →
        (searchBookByTitle lookup t).isbn10 = some e.identifier) ∧
      ((∀ x ∈ ids, x.type ≠ "ISBN_13") →
        (searchBookByTitle lookup t).isbn13 = none) ∧
      (∀ pre e post, ids = pre ++ e :: post → e.type = "ISBN_13" →
        (∀ x ∈ pre, x.type ≠ "ISBN_13") →
        (searchBookByTitle lookup t).isbn13 = some e.identifier)) := by
  obtain ⟨-, -, h10, h13⟩ := searchBookByTitle_found_fields lookup t ti book rest hl hti
  constructor
  · intro hnone
    have hids : (book.volumeInfo.getD {}).industryIdentifiers.getD [] = [] := by
      rw [hnone]; rfl
    rw [h10, h13, hids]
    exact ⟨rfl, rfl, rfl⟩
  · intro ids hids
    rw [hids] at h10 h13
    refine ⟨fun hno => ?_, fun pre e post hdecomp hty hpre => ?_,
      fun hno => ?_, fun pre e post hdecomp hty hpre => ?_⟩
    · rw [h10, List.find?_eq_none.mpr (fun x hx => by simp [hno x hx])]
      rfl
    · rw [h10, hdecomp, find_eq_of_first _ pre e post
        (fun x hx => by simp [hpre x hx]) (by simp [hty])]
      rfl
    · rw [h13, List.find?_eq_none.mpr (fun x hx => by simp [hno x hx])]
      rfl
    · rw [h13, hdecomp, find_eq_of_first _ pre e post
        (fun x hx => by simp [hpre x hx]) (by simp [hty])]
      rfl

theorem enricher_isbn_selection_witness :
    (searchBookByTitle isbnLookup "t").isbn10 = some "0306406152" ∧
    (searchBookByTitle isbnLookup "t").isbn13 = some "9780306406157" :=
  ⟨((enricher_isbn_selection isbnLookup "t" 1 isbnVolume [] rfl (by decide)).2
      isbnIds rfl).2.1
    [{ type := "OTHER", identifier := "z" }]
    { type := "ISBN_10", identifier := "0306406152" }
    [{ type := "ISBN_13", identifier := "9780306406157" },
     { type := "ISBN_10", identifier := "duplicate" }] rfl rfl (by decide),
   ((enricher_isbn_selection isbnLookup "t" 1 isbnVolume [] rfl (by decide)).2
      isbnIds rfl).2.2.2
    [{ type := "OTHER", identifier := "z" },
     { type := "ISBN_10", identifier := "0306406152" }]
    { type := "ISBN_13", identifier := "9780306406157" }
    [{ type := "ISBN_10", identifier := "duplicate" }] rfl rfl (by decide)⟩
